import Mathlib

/-!
Shallow embedding of the lead-scoring / lead-qualification core of the
Intelligent-lead-scorer repository (src/backend/services/scorer.py,
src/backend/services/qualifier.py, src/backend/models/scoring.py,
src/backend/models/lead.py).

Python floats are modelled as rationals (all arithmetic in the source is
exact decimal arithmetic on small literals), datetimes as integer day
counts, and Python truthiness of optional numeric / string / list fields
is modelled explicitly (None, 0, "" and [] are falsy).
-/

namespace LeadScorer

/-- ASCII lowercase of one character (`str.lower()`; all keyword data in
the repository is ASCII). -/
def lowerChar (c : Char) : Char :=
  if 65 ≤ c.toNat ∧ c.toNat ≤ 90 then Char.ofNat (c.toNat + 32) else c

/-- Python `s.lower()`. -/
def lowerStr (s : String) : String := String.mk (s.data.map lowerChar)

/-- Python's substring test `pat in hay` on strings. -/
def strContainsSub (hay pat : String) : Bool :=
  hay.data.tails.any (fun t => pat.data.isPrefixOf t)

/-- Python `min` on two numbers (returns the first argument on ties). -/
def pyMin (a b : ℚ) : ℚ := if Rat.blt b a then b else a

/-- Python `max` on two numbers (returns the first argument on ties). -/
def pyMax (a b : ℚ) : ℚ := if Rat.blt a b then b else a

/-- The loop of Python `field.split('.')`. -/
def splitDotAux : List Char → List Char → List String
  | [], acc => [String.mk acc.reverse]
  | c :: cs, acc =>
    if c = '.' then String.mk acc.reverse :: splitDotAux cs []
    else splitDotAux cs (c :: acc)

/-- Python `field.split('.')` (an empty string splits to `[""]`). -/
def splitDot (s : String) : List String := splitDotAux s.data []

/-- Python `sep.join(parts)`. -/
def joinSep (sep : String) : List String → String
  | [] => ""
  | [s] => s
  | s :: rest => s ++ sep ++ joinSep sep rest

/-- `any(p in hay for p in pats)`: some pattern of the list occurs in `hay`. -/
def anySubIn (pats : List String) (hay : String) : Bool :=
  pats.any (fun p => strContainsSub hay p)

/-- Python truthiness of an optional numeric field: None and 0 are falsy. -/
def qTruthy : Option ℚ → Bool
  | none => false
  | some q => if q = 0 then false else true

/-- Python truthiness of an optional int field: None and 0 are falsy. -/
def zTruthy : Option ℤ → Bool
  | none => false
  | some n => if n = 0 then false else true

/-- Python truthiness of an optional string field: None and "" are falsy. -/
def sTruthy : Option String → Bool
  | none => false
  | some s => if s = "" then false else true

/-- Python `repr` of a dict of strings, as produced by `str(d)`:
`\x7b'k': 'v', ...\x7d` (empty dict prints as `\x7b\x7d`). -/
def pyDictRepr (d : List (String × String)) : String :=
  "\x7b" ++ joinSep ", "
    (d.map (fun kv => "'" ++ kv.1 ++ "': '" ++ kv.2 ++ "'")) ++ "\x7d"

/-- Python `repr` of a list of strings, as produced by `str(l)`:
`['a', 'b']` (empty list prints as `[]`). -/
def pyListRepr (l : List String) : String :=
  "[" ++ joinSep ", " (l.map (fun s => "'" ++ s ++ "'")) ++ "]"

/-! ## Data model (src/backend/models/lead.py) -/

/-- models/lead.py QualificationStatus. -/
inductive QualificationStatus where
  | hot | warm | cold | unqualified
deriving DecidableEq, Repr

/-- models/lead.py CompanyMetrics. `revenue_range` carries the enum's string
value; dates are integer day counts. -/
structure CompanyMetrics where
  employee_count : Option ℤ := none
  revenue_range : Option String := none
  growth_rate : Option ℚ := none
  funding_amount : Option ℚ := none
  funding_stage : Option String := none
  last_funding_date : Option ℤ := none
deriving DecidableEq, Repr

/-- models/lead.py TechnologyStack. -/
structure TechnologyStack where
  technologies : List String := []
  marketing_tools : List String := []
  sales_tools : List String := []
  analytics_tools : List String := []
deriving DecidableEq, Repr

/-- models/lead.py BuyingSignals. -/
structure BuyingSignals where
  job_postings : List String := []
  recent_hiring : Option ℤ := none
  budget_indicators : List String := []
  decision_maker_changes : Bool := false
  expansion_signals : List String := []
deriving DecidableEq, Repr

/-- models/lead.py Lead (the fields read by the scoring/qualification core;
contacts and the derived output fields that the engines never read are
omitted). `social_media_presence` is the dict as an association list. -/
structure Lead where
  id : Option String := none
  company_name : String
  domain : String
  industry : Option String := none
  sub_industry : Option String := none
  metrics : CompanyMetrics := {}
  tech_stack : TechnologyStack := {}
  buying_signals : BuyingSignals := {}
  lead_score : Option ℚ := none
  data_quality_score : Option ℚ := none
  completeness_percentage : Option ℚ := none
  last_enriched : Option ℤ := none
  data_sources : List String := []
  headquarters : Option String := none
  locations : List String := []
  website_traffic_rank : Option ℤ := none
  social_media_presence : List (String × String) := []
deriving DecidableEq, Repr

/-! ## Scoring configuration (src/backend/models/scoring.py) -/

/-- models/scoring.py ScoreCategory. -/
inductive ScoreCategory where
  | company_fit | growth_indicators | technology_fit
  | engagement_signals | timing_signals | buying_signals
deriving DecidableEq, Repr

/-- models/scoring.py ScoringWeights (defaults 0.25/0.20/0.15/0.15/0.15/0.10). -/
structure ScoringWeights where
  company_fit : ℚ := 0.25
  growth_indicators : ℚ := 0.20
  technology_fit : ℚ := 0.15
  engagement_signals : ℚ := 0.15
  timing_signals : ℚ := 0.15
  buying_signals : ℚ := 0.10
deriving DecidableEq, Repr

/-- Sum of the six weights, as in ScoringWeights.validate_weights. -/
def sumWeights (w : ScoringWeights) : ℚ :=
  w.company_fit + w.growth_indicators + w.technology_fit +
  w.engagement_signals + w.timing_signals + w.buying_signals

/-- models/scoring.py ScoringWeights.validate_weights: raises ValueError when
the six weights do not sum to 1.0 within a 0.01 tolerance. -/
def validateWeights (w : ScoringWeights) : Except String Unit :=
  if |sumWeights w - 1| > 0.01 then .error "Weights must sum to 1.0" else .ok ()

/-- models/scoring.py IdealCustomerProfile. -/
structure IdealCustomerProfile where
  target_industries : List String := []
  company_size_min : Option ℤ := none
  company_size_max : Option ℤ := none
  revenue_min : Option ℚ := none
  revenue_max : Option ℚ := none
  target_technologies : List String := []
  target_roles : List String := []
  geographic_regions : List String := []
  funding_stages : List String := []
  excluded_industries : List String := []
  excluded_technologies : List String := []
deriving DecidableEq, Repr

/-- `getattr(self.model.icp, value, [])` for the list-valued ICP attributes
(the rule conditions in the repository only ever name list attributes);
an unknown attribute name yields the `[]` default. -/
def icpGetList (icp : IdealCustomerProfile) : String → List String
  | "target_industries" => icp.target_industries
  | "target_technologies" => icp.target_technologies
  | "target_roles" => icp.target_roles
  | "geographic_regions" => icp.geographic_regions
  | "funding_stages" => icp.funding_stages
  | "excluded_industries" => icp.excluded_industries
  | "excluded_technologies" => icp.excluded_technologies
  | _ => []

/-- The literal of a rule condition's `value` entry (`Dict[str, Any]`). -/
inductive CondValue where
  | cstr : String → CondValue
  | cnum : ℚ → CondValue
  | cbool : Bool → CondValue
deriving DecidableEq, Repr

/-- A rule's `condition` dict: `.get` on the `field` / `operator` / `value`
keys (a missing key is `none`). -/
structure Condition where
  field : Option String := none
  operator : Option String := none
  value : Option CondValue := none
deriving DecidableEq, Repr

/-- models/scoring.py ScoringRule. -/
structure ScoringRule where
  name : String
  category : ScoreCategory
  condition : Condition
  score_impact : ℚ
  weight : ℚ := 1
deriving DecidableEq, Repr

/-- models/scoring.py QualificationThresholds (defaults 80/60/40, floor 50). -/
structure QualificationThresholds where
  hot_threshold : ℚ := 80
  warm_threshold : ℚ := 60
  cold_threshold : ℚ := 40
  min_data_quality : ℚ := 50
deriving DecidableEq, Repr

/-- models/scoring.py ScoringModel (the configuration fields the scoring
engine reads). -/
structure ScoringModel where
  weights : ScoringWeights := {}
  icp : IdealCustomerProfile := {}
  thresholds : QualificationThresholds := {}
  global_rules : List ScoringRule := []
  apply_data_quality_penalty : Bool := true
deriving DecidableEq, Repr

/-- models/scoring.py ScoringModel.get_default_rules. -/
def defaultRules : List ScoringRule :=
  [ { name := "Target Industry Match", category := .company_fit,
      condition := { field := some "industry", operator := some "in",
                     value := some (.cstr "target_industries") },
      score_impact := 20 },
    { name := "Ideal Company Size", category := .company_fit,
      condition := { field := some "employee_count", operator := some "between",
                     value := none },
      score_impact := 15 },
    { name := "Recent Funding", category := .growth_indicators,
      condition := { field := some "last_funding_date", operator := some "within_days",
                     value := some (.cnum 180) },
      score_impact := 15 },
    { name := "High Hiring Velocity", category := .growth_indicators,
      condition := { field := some "hiring_velocity", operator := some "gt",
                     value := some (.cnum 5) },
      score_impact := 10 },
    { name := "Technology Stack Match", category := .technology_fit,
      condition := { field := some "tech_stack", operator := some "intersects",
                     value := some (.cstr "target_technologies") },
      score_impact := 12 },
    { name := "Decision Maker Job Postings", category := .buying_signals,
      condition := { field := some "job_postings", operator := some "contains_roles",
                     value := some (.cstr "target_roles") },
      score_impact := 25 },
    { name := "Competitor Technology", category := .timing_signals,
      condition := { field := some "tech_stack", operator := some "contains_competitor",
                     value := some (.cbool true) },
      score_impact := 8 },
    { name := "Website Traffic Growth", category := .engagement_signals,
      condition := { field := some "website_traffic_trend", operator := some "eq",
                     value := some (.cstr "up") },
      score_impact := 5 } ]

/-! ## Rule matcher (scorer.py `_get_field_value`, `_rule_matches`) -/

/-- A Python value reachable by the dotted-path `getattr` walk over a Lead. -/
inductive PyVal where
  | pstr : String → PyVal
  | pint : ℤ → PyVal
  | prat : ℚ → PyVal
  | pbool : Bool → PyVal
  | pdate : ℤ → PyVal
  | pstrList : List String → PyVal
  | pdict : List (String × String) → PyVal
  | pmetrics : CompanyMetrics → PyVal
  | ptech : TechnologyStack → PyVal
  | psignals : BuyingSignals → PyVal
  | plead : Lead → PyVal
deriving DecidableEq, Repr

/-- `hasattr`/`getattr` on a CompanyMetrics: outer `none` = no such
attribute, `some none` = attribute present but None. -/
def metricsAttr (m : CompanyMetrics) : String → Option (Option PyVal)
  | "employee_count" => some (m.employee_count.map .pint)
  | "revenue_range" => some (m.revenue_range.map .pstr)
  | "growth_rate" => some (m.growth_rate.map .prat)
  | "funding_amount" => some (m.funding_amount.map .prat)
  | "funding_stage" => some (m.funding_stage.map .pstr)
  | "last_funding_date" => some (m.last_funding_date.map .pdate)
  | _ => none

/-- `hasattr`/`getattr` on a TechnologyStack. -/
def techAttr (t : TechnologyStack) : String → Option (Option PyVal)
  | "technologies" => some (some (.pstrList t.technologies))
  | "marketing_tools" => some (some (.pstrList t.marketing_tools))
  | "sales_tools" => some (some (.pstrList t.sales_tools))
  | "analytics_tools" => some (some (.pstrList t.analytics_tools))
  | _ => none

/-- `hasattr`/`getattr` on a BuyingSignals. -/
def signalsAttr (s : BuyingSignals) : String → Option (Option PyVal)
  | "job_postings" => some (some (.pstrList s.job_postings))
  | "recent_hiring" => some (s.recent_hiring.map .pint)
  | "budget_indicators" => some (some (.pstrList s.budget_indicators))
  | "decision_maker_changes" => some (some (.pbool s.decision_maker_changes))
  | "expansion_signals" => some (some (.pstrList s.expansion_signals))
  | _ => none

/-- `hasattr`/`getattr` on a Lead. -/
def leadAttr (l : Lead) : String → Option (Option PyVal)
  | "id" => some (l.id.map .pstr)
  | "company_name" => some (some (.pstr l.company_name))
  | "domain" => some (some (.pstr l.domain))
  | "industry" => some (l.industry.map .pstr)
  | "sub_industry" => some (l.sub_industry.map .pstr)
  | "metrics" => some (some (.pmetrics l.metrics))
  | "tech_stack" => some (some (.ptech l.tech_stack))
  | "buying_signals" => some (some (.psignals l.buying_signals))
  | "lead_score" => some (l.lead_score.map .prat)
  | "data_quality_score" => some (l.data_quality_score.map .prat)
  | "completeness_percentage" => some (l.completeness_percentage.map .prat)
  | "last_enriched" => some (l.last_enriched.map .pdate)
  | "data_sources" => some (some (.pstrList l.data_sources))
  | "headquarters" => some (l.headquarters.map .pstr)
  | "locations" => some (some (.pstrList l.locations))
  | "website_traffic_rank" => some (l.website_traffic_rank.map .pint)
  | "social_media_presence" => some (some (.pdict l.social_media_presence))
  | _ => none

/-- One `getattr` step of `_get_field_value`, dispatching on the object. -/
def pyGetAttr : PyVal → String → Option (Option PyVal)
  | .plead l, f => leadAttr l f
  | .pmetrics m, f => metricsAttr m f
  | .ptech t, f => techAttr t f
  | .psignals s, f => signalsAttr s f
  | _, _ => none

/-- The loop of `_get_field_value`: walk the remaining path parts.
A missing attribute, or any further lookup on None, returns None. -/
def resolvePath : Option PyVal → List String → Option PyVal
  | v, [] => v
  | none, _ :: _ => none
  | some v, p :: ps =>
    match pyGetAttr v p with
    | none => none
    | some v' => resolvePath v' ps

/-- scorer.py `_get_field_value`: dotted-path lookup on the lead. -/
def getFieldValue (lead : Lead) (field : String) : Option PyVal :=
  resolvePath (some (.plead lead)) (splitDot field)

/-- Python `field_value == value` for the value shapes occurring in rule
conditions (values of different shapes compare unequal). -/
def pyEq : PyVal → Option CondValue → Bool
  | .pstr s, some (.cstr t) => s = t
  | .pint n, some (.cnum q) => (n : ℚ) = q
  | .prat a, some (.cnum q) => a = q
  | .pbool b, some (.cbool c) => b = c
  | _, _ => false

/-- `isinstance(field_value, (int, float)) and field_value > value`. -/
def evalGt : PyVal → Option CondValue → Bool
  | .pint n, some (.cnum q) => q < (n : ℚ)
  | .prat a, some (.cnum q) => q < a
  | _, _ => false

/-- `isinstance(field_value, (int, float)) and field_value < value`. -/
def evalLt : PyVal → Option CondValue → Bool
  | .pint n, some (.cnum q) => (n : ℚ) < q
  | .prat a, some (.cnum q) => a < q
  | _, _ => false

/-- `field_value in getattr(self.model.icp, value, [])` (string membership
in a named ICP list; non-string field values are not members). -/
def evalIn (icp : IdealCustomerProfile) : PyVal → Option CondValue → Bool
  | .pstr s, some (.cstr name) => decide (s ∈ icpGetList icp name)
  | _, _ => false

/-- `isinstance(field_value, str) and value.lower() in field_value.lower()`. -/
def evalContains : PyVal → Option CondValue → Bool
  | .pstr s, some (.cstr t) => strContainsSub (lowerStr s) (lowerStr t)
  | _, _ => false

/-- list field: `bool(set(field_value) & set(getattr(icp, value, [])))`;
a non-list field value falls through to no-match. -/
def evalIntersects (icp : IdealCustomerProfile) : PyVal → Option CondValue → Bool
  | .pstrList l, some (.cstr name) => l.any (fun x => decide (x ∈ icpGetList icp name))
  | _, _ => false

/-- datetime field: `(now - field_value).days <= value`; a non-datetime
field value falls through to no-match. -/
def evalWithinDays (now : ℤ) : PyVal → Option CondValue → Bool
  | .pdate d, some (.cnum q) => ((now - d : ℤ) : ℚ) ≤ q
  | _, _ => false

/-- The operators dispatched by `_rule_matches`. -/
def knownOperators : List String :=
  ["eq", "gt", "lt", "in", "contains", "intersects", "within_days"]

/-- The operator-dispatch elif chain of `_rule_matches`; an unmatched
operator (including a missing one) falls through to `False`. -/
def opMatches (icp : IdealCustomerProfile) (now : ℤ) (fv : PyVal)
    (op : Option String) (v : Option CondValue) : Bool :=
  match op with
  | none => false
  | some o =>
    if o = "eq" then pyEq fv v
    else if o = "gt" then evalGt fv v
    else if o = "lt" then evalLt fv v
    else if o = "in" then evalIn icp fv v
    else if o = "contains" then evalContains fv v
    else if o = "intersects" then evalIntersects icp fv v
    else if o = "within_days" then evalWithinDays now fv v
    else false

/-- scorer.py `_rule_matches`: a falsy `field` key, an unresolvable field
path, or an unmatched operator all yield no-match. -/
def ruleMatches (icp : IdealCustomerProfile) (now : ℤ) (lead : Lead)
    (r : ScoringRule) : Bool :=
  match r.condition.field with
  | none => false
  | some f =>
    if f = "" then false
    else
      match getFieldValue lead f with
      | none => false
      | some fv => opMatches icp now fv r.condition.operator r.condition.value

/-- scorer.py `_apply_scoring_rules`: total adjustment and applied-rule
names accumulated over the rule list. -/
def applyScoringRules (icp : IdealCustomerProfile) (now : ℤ) (lead : Lead)
    (rules : List ScoringRule) : ℚ × List String :=
  rules.foldl
    (fun acc r =>
      if ruleMatches icp now lead r then
        (acc.1 + r.score_impact * r.weight, acc.2 ++ [r.name])
      else acc)
    (0, [])

/-! ## Category scorers (scorer.py `_score_*`); each returns the numeric
score (the explanation records built alongside carry no score logic). -/

/-- scorer.py `self.industry_multipliers`. -/
def industryMultiplier : String → Option ℚ
  | "technology" => some 1.2
  | "software" => some 1.2
  | "saas" => some 1.3
  | "fintech" => some 1.1
  | "healthcare" => some 1.0
  | "e-commerce" => some 1.1
  | "marketing" => some 0.9
  | "consulting" => some 0.8
  | "manufacturing" => some 0.7
  | "retail" => some 0.8
  | _ => none

/-- scorer.py `self.target_tech_stack`. -/
def targetTechStack : List String :=
  ["python", "react", "node.js", "aws", "postgresql",
   "redis", "docker", "kubernetes", "api", "microservices"]

/-- scorer.py `self.competitor_technologies`. -/
def competitorTechnologies : List String :=
  ["salesforce", "hubspot", "marketo", "pardot",
   "mailchimp", "constant-contact", "pipedrive"]

/-- Industry fit points of `_score_company_fit` (target-industry substring
match 8, known industry-multiplier 6×mult, otherwise 3; falsy industry 0). -/
def industryPoints (icp : IdealCustomerProfile) (industry : Option String) : ℚ :=
  match industry with
  | none => 0
  | some s =>
    if s = "" then 0
    else
      let lo := lowerStr s
      if icp.target_industries.any (fun t => strContainsSub lo t) then 8
      else
        match industryMultiplier lo with
        | some m => 6 * m
        | none => 3

/-- Default size tiers of `_score_company_size` when no ICP size range is
configured (or one bound is falsy). -/
def defaultSizeScore (n : ℤ) : ℚ :=
  if 50 ≤ n ∧ n ≤ 500 then 8
  else if 20 ≤ n ∧ n ≤ 1000 then 6
  else if 10 ≤ n ∧ n ≤ 2000 then 4
  else 2

/-- scorer.py `_score_company_size` (both ICP bounds must be truthy, i.e.
present and nonzero, for the ICP branch to run). -/
def scoreCompanySize (icp : IdealCustomerProfile) (n : ℤ) : ℚ :=
  match icp.company_size_min, icp.company_size_max with
  | some a, some b =>
    if a ≠ 0 ∧ b ≠ 0 then
      if a ≤ n ∧ n ≤ b then 8
      else if n < a then 8 * ((n : ℚ) / (a : ℚ))
      else 6
    else defaultSizeScore n
  | _, _ => defaultSizeScore n

/-- Company-size points (skipped for a falsy employee_count). -/
def sizePoints (icp : IdealCustomerProfile) (ec : Option ℤ) : ℚ :=
  match ec with
  | none => 0
  | some n => if n = 0 then 0 else scoreCompanySize icp n

/-- Revenue-range presence points (a present enum member is always truthy). -/
def revenuePoints (rr : Option String) : ℚ :=
  match rr with
  | none => 0
  | some _ => 5

/-- scorer.py `_score_geographic_fit`. -/
def geographicFit (location : String) : ℚ :=
  let lo := lowerStr location
  if anySubIn ["san francisco", "new york", "seattle", "boston", "austin"] lo then 4
  else if anySubIn ["usa", "us", "united states", "canada"] lo then 3
  else if anySubIn ["uk", "australia", "ireland", "new zealand"] lo then 2
  else 1

/-- Geographic points (skipped for a falsy headquarters). -/
def geoPoints (hq : Option String) : ℚ :=
  match hq with
  | none => 0
  | some s => if s = "" then 0 else geographicFit s

/-- scorer.py `_score_company_fit` (cap 25 is documentation only; the sum
is not clamped). -/
def scoreCompanyFit (icp : IdealCustomerProfile) (lead : Lead) : ℚ :=
  industryPoints icp lead.industry +
  sizePoints icp lead.metrics.employee_count +
  revenuePoints lead.metrics.revenue_range +
  geoPoints lead.headquarters

/-- Funding-recency tiers of `_score_growth_indicators`. -/
def fundingRecencyPoints (now : ℤ) (d : Option ℤ) : ℚ :=
  match d with
  | none => 0
  | some t =>
    let days := now - t
    if days ≤ 90 then 6
    else if days ≤ 180 then 4
    else if days ≤ 365 then 2
    else 0

/-- Hiring-velocity tiers of `_score_growth_indicators` (falsy
recent_hiring skips the block). -/
def hiringVelocityPoints (h : Option ℤ) : ℚ :=
  match h with
  | none => 0
  | some n =>
    if n = 0 then 0
    else if 10 ≤ n then 6
    else if 5 ≤ n then 4
    else if 2 ≤ n then 2
    else 0

/-- Open-job-posting count points of `_score_growth_indicators`. -/
def jobPostingCountPoints (ps : List String) : ℚ :=
  if ps = [] then 0 else pyMin 4 (ps.length : ℚ)

/-- Growth-rate tiers of `_score_growth_indicators`; a falsy growth_rate
(absent or exactly 0) skips the block. -/
def growthRatePoints (g : Option ℚ) : ℚ :=
  match g with
  | none => 0
  | some q =>
    if q = 0 then 0
    else if 50 ≤ q then 4
    else if 25 ≤ q then 3
    else if 10 ≤ q then 2
    else 1

/-- scorer.py `_score_growth_indicators`. -/
def scoreGrowthIndicators (now : ℤ) (lead : Lead) : ℚ :=
  fundingRecencyPoints now lead.metrics.last_funding_date +
  hiringVelocityPoints lead.buying_signals.recent_hiring +
  jobPostingCountPoints lead.buying_signals.job_postings +
  growthRatePoints lead.metrics.growth_rate

/-- The concatenation of the four tech-stack lists. -/
def allTechnologies (lead : Lead) : List String :=
  lead.tech_stack.technologies ++ lead.tech_stack.marketing_tools ++
  lead.tech_stack.sales_tools ++ lead.tech_stack.analytics_tools

/-- Compatible-technology points of `_score_technology_fit`. -/
def compatibleTechPoints (techs : List String) : ℚ :=
  let compatible := techs.filter (fun t => decide (lowerStr t ∈ targetTechStack))
  if compatible = [] then 0 else pyMin 8 (2 * (compatible.length : ℚ))

/-- Competitor-technology points of `_score_technology_fit`. -/
def competitorTechPoints (techs : List String) : ℚ :=
  let comp := techs.filter (fun t => decide (lowerStr t ∈ competitorTechnologies))
  if comp = [] then 0 else pyMin 5 (3 * (comp.length : ℚ))

/-- Modern-stack points of `_score_technology_fit`. -/
def modernTechPoints (techs : List String) : ℚ :=
  let modern := techs.filter
    (fun t => anySubIn ["api", "cloud", "microservices", "docker", "kubernetes", "saas"] (lowerStr t))
  if modern = [] then 0 else 2

/-- scorer.py `_score_technology_fit` (early return 0 on an empty stack). -/
def scoreTechnologyFit (lead : Lead) : ℚ :=
  let techs := allTechnologies lead
  if techs = [] then 0
  else compatibleTechPoints techs + competitorTechPoints techs + modernTechPoints techs

/-- Traffic-rank tiers of `_score_engagement_signals` (falsy rank skips). -/
def trafficRankPoints (r : Option ℤ) : ℚ :=
  match r with
  | none => 0
  | some n =>
    if n = 0 then 0
    else if n ≤ 100000 then 5
    else if n ≤ 500000 then 3
    else if n ≤ 1000000 then 2
    else 1

/-- Social-presence points of `_score_engagement_signals`. -/
def socialPresencePoints (d : List (String × String)) : ℚ :=
  if d = [] then 0 else pyMin 5 (2 * (d.length : ℚ))

/-- Thought-leadership points: keyword search in `str(social_media_presence)`. -/
def thoughtLeadershipPoints (d : List (String × String)) : ℚ :=
  if anySubIn ["blog", "content", "webinar", "podcast", "speaking"] (lowerStr (pyDictRepr d))
  then 3 else 0

/-- Data-recency points of `_score_engagement_signals`. -/
def dataRecencyPoints (now : ℤ) (le : Option ℤ) : ℚ :=
  match le with
  | none => 0
  | some t => if now - t ≤ 30 then 2 else 0

/-- scorer.py `_score_engagement_signals`. -/
def scoreEngagementSignals (now : ℤ) (lead : Lead) : ℚ :=
  trafficRankPoints lead.website_traffic_rank +
  socialPresencePoints lead.social_media_presence +
  thoughtLeadershipPoints lead.social_media_presence +
  dataRecencyPoints now lead.last_enriched

/-- Decision-maker-change points of `_score_timing_signals`. -/
def decisionMakerPoints (b : Bool) : ℚ := if b then 6 else 0

/-- Expansion-signal points of `_score_timing_signals`. -/
def expansionPoints (es : List String) : ℚ :=
  if es = [] then 0 else pyMin 4 (2 * (es.length : ℚ))

/-- Post-funding sweet-spot points of `_score_timing_signals`. -/
def fundingWindowPoints (now : ℤ) (d : Option ℤ) : ℚ :=
  match d with
  | none => 0
  | some t => if 30 ≤ now - t ∧ now - t ≤ 180 then 3 else 0

/-- Adoption-keyword points: keyword search in `str(expansion_signals)`. -/
def adoptionPoints (es : List String) : ℚ :=
  if anySubIn ["migration", "upgrade", "implementation", "new system"] (lowerStr (pyListRepr es))
  then 2 else 0

/-- scorer.py `_score_timing_signals`. -/
def scoreTimingSignals (now : ℤ) (lead : Lead) : ℚ :=
  decisionMakerPoints lead.buying_signals.decision_maker_changes +
  expansionPoints lead.buying_signals.expansion_signals +
  fundingWindowPoints now lead.metrics.last_funding_date +
  adoptionPoints lead.buying_signals.expansion_signals

/-- Budget-indicator points of `_score_buying_signals`. -/
def budgetPoints (bs : List String) : ℚ :=
  if bs = [] then 0 else pyMin 4 (2 * (bs.length : ℚ))

/-- Relevant-role job-posting points of `_score_buying_signals`. -/
def relevantRolePoints (ps : List String) : ℚ :=
  if ps = [] then 0
  else
    let relevant := ps.filter
      (fun j => anySubIn ["marketing", "growth", "digital", "automation", "operations", "technology"] (lowerStr j))
    if relevant = [] then 0 else pyMin 4 (2 * (relevant.length : ℚ))

/-- The f-string `company_text` of `_score_buying_signals` (a None industry
prints as "None"). -/
def companyText (lead : Lead) : String :=
  lead.company_name ++ " " ++
  (match lead.industry with | none => "None" | some s => s) ++ " " ++
  joinSep " " lead.buying_signals.expansion_signals

/-- Pain-point keyword points of `_score_buying_signals`. -/
def painPointPoints (lead : Lead) : ℚ :=
  if anySubIn ["inefficient", "manual", "time-consuming", "outdated", "challenge"]
      (lowerStr (companyText lead))
  then 2 else 0

/-- scorer.py `_score_buying_signals`. -/
def scoreBuyingSignals (lead : Lead) : ℚ :=
  budgetPoints lead.buying_signals.budget_indicators +
  relevantRolePoints lead.buying_signals.job_postings +
  painPointPoints lead

/-- The `category_scores` dict assembled by `score_lead`. -/
def categoryScores (icp : IdealCustomerProfile) (now : ℤ) (lead : Lead) :
    ScoreCategory → ℚ
  | .company_fit => scoreCompanyFit icp lead
  | .growth_indicators => scoreGrowthIndicators now lead
  | .technology_fit => scoreTechnologyFit lead
  | .engagement_signals => scoreEngagementSignals now lead
  | .timing_signals => scoreTimingSignals now lead
  | .buying_signals => scoreBuyingSignals lead

/-! ## Aggregation and `score_lead` -/

/-- scorer.py `_calculate_weighted_score`. -/
def calculateWeightedScore (w : ScoringWeights) (cs : ScoreCategory → ℚ)
    (ruleAdjustments : ℚ) : ℚ :=
  cs .company_fit * w.company_fit +
  cs .growth_indicators * w.growth_indicators +
  cs .technology_fit * w.technology_fit +
  cs .engagement_signals * w.engagement_signals +
  cs .timing_signals * w.timing_signals +
  cs .buying_signals * w.buying_signals +
  ruleAdjustments

/-- scorer.py `_determine_qualification` (inclusive bounds, highest first). -/
def determineQualification (t : QualificationThresholds) (score : ℚ) :
    QualificationStatus :=
  if t.hot_threshold ≤ score then .hot
  else if t.warm_threshold ≤ score then .warm
  else if t.cold_threshold ≤ score then .cold
  else .unqualified

/-- scorer.py `_calculate_confidence` (truthiness: a present 0 counts as
absent in the `if` chain). -/
def calculateConfidence (lead : Lead) : ℚ :=
  match lead.data_quality_score, lead.completeness_percentage with
  | some q, some c =>
    if q ≠ 0 ∧ c ≠ 0 then (q * 0.6 + c * 0.4) / 100
    else if q ≠ 0 then q / 100
    else if c ≠ 0 then c / 100
    else 0.5
  | some q, none => if q ≠ 0 then q / 100 else 0.5
  | none, some c => if c ≠ 0 then c / 100 else 0.5
  | none, none => 0.5

/-- The weighted total before the data-quality penalty
(`total_score` right after `_calculate_weighted_score` in `score_lead`). -/
def prePenaltyTotal (model : ScoringModel) (now : ℤ) (lead : Lead) : ℚ :=
  calculateWeightedScore model.weights (categoryScores model.icp now lead)
    (applyScoringRules model.icp now lead model.global_rules).1

/-- Whether `score_lead` enters the penalty branch:
`self.model.apply_data_quality_penalty and lead.data_quality_score`
(a present score of exactly 0 is falsy and skips the branch). -/
def penaltyApplies (model : ScoringModel) (lead : Lead) : Bool :=
  model.apply_data_quality_penalty && qTruthy lead.data_quality_score

/-- The `data_quality_impact` computed by `score_lead`. -/
def dataQualityImpact (model : ScoringModel) (now : ℤ) (lead : Lead) : ℚ :=
  if penaltyApplies model lead then
    prePenaltyTotal model now lead *
      (1 - lead.data_quality_score.getD 0 / 100) * 0.2
  else 0

/-- `total_score` after the penalty branch of `score_lead` (floored at 0
inside the branch; untouched otherwise). -/
def postPenaltyTotal (model : ScoringModel) (now : ℤ) (lead : Lead) : ℚ :=
  if penaltyApplies model lead then
    pyMax 0 (prePenaltyTotal model now lead - dataQualityImpact model now lead)
  else prePenaltyTotal model now lead

/-- scorer.py LeadScore (the numeric fields of the engine's output). -/
structure LeadScore where
  total_score : ℚ
  category_scores : ScoreCategory → ℚ
  qualification_status : QualificationStatus
  confidence : ℚ
  data_quality_impact : ℚ
  applied_rules : List String

/-- scorer.py `score_lead`: category scores, rule adjustments, weighted
total, data-quality penalty, qualification, confidence; the returned
`total_score` is clamped to [0, 100] at the very end. -/
def scoreLead (model : ScoringModel) (now : ℤ) (lead : Lead) : LeadScore :=
  { total_score := pyMin 100 (pyMax 0 (postPenaltyTotal model now lead)),
    category_scores := categoryScores model.icp now lead,
    qualification_status :=
      determineQualification model.thresholds (postPenaltyTotal model now lead),
    confidence := calculateConfidence lead,
    data_quality_impact := dataQualityImpact model now lead,
    applied_rules := (applyScoringRules model.icp now lead model.global_rules).2 }

/-- scorer.py `LeadScoringEngine.__init__`: an empty rule list is replaced
by the default rules; no other validation is performed on the model. -/
def leadScoringEngineInit (m : ScoringModel) : ScoringModel :=
  if m.global_rules = [] then { m with global_rules := defaultRules } else m

/-- The model held by `LeadScoringEngine()` constructed with no argument
(all ScoringModel defaults, rules filled in by `__init__`). -/
def defaultModel : ScoringModel := leadScoringEngineInit {}

/-! ## Intent analyzer (qualifier.py BuyerIntentAnalyzer) -/

/-- `relevant_roles['high_intent']` of `_analyze_job_posting_intent`. -/
def highIntentRoles : List String :=
  ["vp marketing", "marketing director", "growth lead", "head of growth"]

/-- `relevant_roles['medium_intent']` of `_analyze_job_posting_intent`. -/
def mediumIntentRoles : List String :=
  ["marketing manager", "digital marketing", "marketing analyst"]

/-- `relevant_roles['decision_maker']` of `_analyze_job_posting_intent`. -/
def decisionMakerRoles : List String :=
  ["cmo", "ceo", "vp", "director", "head of"]

/-- `tech_keywords` of `_analyze_job_posting_intent`. -/
def techRoleKeywords : List String :=
  ["automation", "analytics", "crm", "marketing ops", "martech"]

/-- Per-posting points of `_analyze_job_posting_intent`: high-intent roles
and medium-intent roles are an if/elif pair (mutually exclusive, high
first); decision-maker roles and tech keywords are separate ifs. -/
def postingIntentPoints (posting : String) : ℚ :=
  let lo := lowerStr posting
  (if anySubIn highIntentRoles lo then 5
   else if anySubIn mediumIntentRoles lo then 3
   else 0) +
  (if anySubIn decisionMakerRoles lo then 2 else 0) +
  (if anySubIn techRoleKeywords lo then 4 else 0)

/-- qualifier.py `_analyze_job_posting_intent` score (capped at 10). -/
def analyzeJobPostingIntent (postings : List String) : ℚ :=
  pyMin ((postings.map postingIntentPoints).sum) 10

/-- qualifier.py `_analyze_technology_intent` score (capped at 8); note the
analyzer's stack omits `analytics_tools`. -/
def analyzeTechnologyIntent (lead : Lead) : ℚ :=
  let allTech := lead.tech_stack.technologies ++ lead.tech_stack.marketing_tools ++
    lead.tech_stack.sales_tools
  let competitorScore := 3 *
    ((allTech.filter (fun t =>
      decide (lowerStr t ∈ ["hubspot", "salesforce", "marketo", "pardot", "mailchimp"]))).length : ℚ)
  let outdatedScore := 2 *
    ((allTech.filter (fun t =>
      anySubIn ["legacy", "on-premise", "excel", "manual", "spreadsheet"] (lowerStr t))).length : ℚ)
  let gapScore : ℚ := if allTech.length < 3 then 2 else 0
  pyMin (competitorScore + outdatedScore + gapScore) 8

/-- qualifier.py `_analyze_growth_intent` score (capped at 6). -/
def analyzeGrowthIntent (lead : Lead) : ℚ :=
  let hiringScore : ℚ :=
    match lead.buying_signals.recent_hiring with
    | none => 0
    | some h => if h ≠ 0 ∧ 5 ≤ h then 3 else 0
  let expansionScore := 2 *
    ((lead.buying_signals.expansion_signals.filter (fun s =>
      anySubIn ["expansion", "new market", "scaling", "growth", "international"] (lowerStr s))).length : ℚ)
  let growthScore : ℚ :=
    match lead.metrics.growth_rate with
    | none => 0
    | some g => if g ≠ 0 ∧ 25 ≤ g then 2 else 0
  pyMin (hiringScore + expansionScore + growthScore) 6

/-- qualifier.py `_analyze_funding_intent` score (capped at 5). -/
def analyzeFundingIntent (now : ℤ) (lead : Lead) : ℚ :=
  let recencyScore : ℚ :=
    match lead.metrics.last_funding_date with
    | none => 0
    | some t =>
      if now - t ≤ 90 then 4
      else if now - t ≤ 180 then 2
      else 0
  let amountScore : ℚ :=
    match lead.metrics.funding_amount with
    | none => 0
    | some a => if a ≠ 0 ∧ 10000000 ≤ a then 2 else 0
  pyMin (recencyScore + amountScore) 5

/-- qualifier.py `analyze_intent`'s summed `intent_score` (the job-posting
component is only added when `job_postings` is truthy). -/
def intentScore (now : ℤ) (lead : Lead) : ℚ :=
  (if lead.buying_signals.job_postings = [] then 0
   else analyzeJobPostingIntent lead.buying_signals.job_postings) +
  analyzeTechnologyIntent lead +
  analyzeGrowthIntent lead +
  analyzeFundingIntent now lead

/-- qualifier.py `analyze_intent`'s level thresholds. -/
def intentLevel (s : ℚ) : String :=
  if 15 ≤ s then "High"
  else if 8 ≤ s then "Medium"
  else if 3 ≤ s then "Low"
  else "Minimal"

/-! ## Qualification engine (qualifier.py LeadQualificationEngine) -/

/-- The wall clock a qualification call runs under: the current day (for
date differences) and the current month (for the quarter bonus). -/
structure Clock where
  today : ℤ
  month : ℕ
deriving DecidableEq, Repr

/-- qualifier.py `_calculate_timing_score` (capped at 20). -/
def calculateTimingScore (clock : Clock) (lead : Lead) : ℚ :=
  let fundingScore : ℚ :=
    match lead.metrics.last_funding_date with
    | none => 0
    | some t =>
      let d := clock.today - t
      if 30 ≤ d ∧ d ≤ 120 then 8
      else if 120 ≤ d ∧ d ≤ 180 then 5
      else if d ≤ 30 then 3
      else 0
  let hiringScore : ℚ :=
    match lead.buying_signals.recent_hiring with
    | none => 0
    | some h =>
      if h = 0 then 0
      else if 5 ≤ h then 6
      else if 2 ≤ h then 3
      else 0
  let dmScore : ℚ := if lead.buying_signals.decision_maker_changes then 5 else 0
  let quarterScore : ℚ := if clock.month ∈ [1, 4, 7, 10] then 2 else 0
  pyMin (fundingScore + hiringScore + dmScore + quarterScore) 20

/-- qualifier.py `_determine_final_qualification`: the intent/timing
upgrade branches return immediately; the data-quality downgrade is only
reached when no upgrade branch fired, and downgrades the base tier. -/
def determineFinalQualification (base : QualificationStatus)
    (level : String) (timingScore : ℚ) (dq : Option ℚ) : QualificationStatus :=
  if level = "High" ∧ base = .warm then .hot
  else if level = "High" ∧ base = .cold then .warm
  else if level = "Medium" ∧ base = .cold then .warm
  else if 15 ≤ timingScore ∧ base = .warm then .hot
  else
    match dq with
    | some q =>
      if q ≠ 0 ∧ q < 40 then
        if base = .hot then .warm
        else if base = .warm then .cold
        else base
      else base
    | none => base

/-- qualifier.py `_calculate_priority_score` (weights 0.4/0.3/0.2/0.1). -/
def calculatePriorityScore (leadScore is ts dq : ℚ) : ℚ :=
  (leadScore / 100 * 0.4 + pyMin (is / 20) 1 * 0.3 + dq / 100 * 0.2 + ts / 20 * 0.1) * 100

/-- `lead.data_quality_score or 50`: None and a present 0 both yield 50. -/
def dqOr50 : Option ℚ → ℚ
  | none => 50
  | some q => if q = 0 then 50 else q

/-- The numeric core of qualifier.py `qualify_lead`'s result bundle (the
templated action-plan / outreach strings carry no scoring logic). -/
structure QualificationResult where
  lead_score : LeadScore
  intent_score : ℚ
  intent_level : String
  timing_score : ℚ
  final_qualification : QualificationStatus
  priority_score : ℚ

/-- qualifier.py `qualify_lead`: scores with the default-constructed
`LeadScoringEngine()`, analyzes intent and timing, reconciles the final
tier, and computes the priority score. -/
def qualifyLead (clock : Clock) (lead : Lead) : QualificationResult :=
  let ls := scoreLead defaultModel clock.today lead
  let is := intentScore clock.today lead
  let lvl := intentLevel is
  let ts := calculateTimingScore clock lead
  { lead_score := ls,
    intent_score := is,
    intent_level := lvl,
    timing_score := ts,
    final_qualification :=
      determineFinalQualification ls.qualification_status lvl ts lead.data_quality_score,
    priority_score :=
      calculatePriorityScore ls.total_score is ts (dqOr50 lead.data_quality_score) }

/-! ## Helper lemmas -/

theorem pyMax_eq_max (a b : ℚ) : pyMax a b = max a b := by
  unfold pyMax
  split
  · next h => exact (max_eq_right (le_of_lt (h : a < b))).symm
  · next h => exact (max_eq_left (not_lt.mp (fun hlt => h hlt))).symm

theorem pyMin_eq_min (a b : ℚ) : pyMin a b = min a b := by
  unfold pyMin
  split
  · next h => exact (min_eq_right (le_of_lt (h : b < a))).symm
  · next h => exact (min_eq_left (not_lt.mp (fun hlt => h hlt))).symm

theorem pyMin_nonneg {a b : ℚ} (ha : 0 ≤ a) (hb : 0 ≤ b) : 0 ≤ pyMin a b := by
  rw [pyMin_eq_min]; exact le_min ha hb

theorem industryMultiplier_nonneg (s : String) (m : ℚ)
    (h : industryMultiplier s = some m) : 0 ≤ m := by
  unfold industryMultiplier at h
  split at h <;> first | (cases h; norm_num) | exact Option.noConfusion h

theorem industryPoints_nonneg (icp : IdealCustomerProfile) (ind : Option String) :
    0 ≤ industryPoints icp ind := by
  rcases ind with _ | s
  · simp [industryPoints]
  · simp only [industryPoints]
    split
    · norm_num
    · split
      · norm_num
      · split
        · next m heq => have := industryMultiplier_nonneg _ m heq; linarith
        · norm_num

theorem defaultSizeScore_nonneg (n : ℤ) : 0 ≤ defaultSizeScore n := by
  simp only [defaultSizeScore]
  split
  · norm_num
  · split
    · norm_num
    · split <;> norm_num

theorem sizePoints_nonneg_of (icp : IdealCustomerProfile)
    (h : icp.company_size_min = none) (ec : Option ℤ) : 0 ≤ sizePoints icp ec := by
  rcases ec with _ | n
  · simp [sizePoints]
  · simp only [sizePoints, scoreCompanySize, h]
    split
    · norm_num
    · rcases icp.company_size_max with _ | b
     <;> exact defaultSizeScore_nonneg n

theorem revenuePoints_nonneg (rr : Option String) : 0 ≤ revenuePoints rr := by
  rcases rr with _ | s <;> simp [revenuePoints]

theorem geoPoints_nonneg (hq : Option String) : 0 ≤ geoPoints hq := by
  rcases hq with _ | s
  · simp [geoPoints]
  · simp only [geoPoints, geographicFit]
    split
    · norm_num
    · split
      · norm_num
      · split
        · norm_num
        · split <;> norm_num

theorem scoreCompanyFit_nonneg (icp : IdealCustomerProfile)
    (h : icp.company_size_min = none) (lead : Lead) : 0 ≤ scoreCompanyFit icp lead := by
  unfold scoreCompanyFit
  have h1 := industryPoints_nonneg icp lead.industry
  have h2 := sizePoints_nonneg_of icp h lead.metrics.employee_count
  have h3 := revenuePoints_nonneg lead.metrics.revenue_range
  have h4 := geoPoints_nonneg lead.headquarters
  linarith

theorem fundingRecencyPoints_nonneg (now : ℤ) (d : Option ℤ) :
    0 ≤ fundingRecencyPoints now d := by
  rcases d with _ | t
  · simp [fundingRecencyPoints]
  · simp only [fundingRecencyPoints]
    split
    · norm_num
    · split
      · norm_num
      · split <;> norm_num

theorem hiringVelocityPoints_nonneg (h : Option ℤ) : 0 ≤ hiringVelocityPoints h := by
  rcases h with _ | n
  · simp [hiringVelocityPoints]
  · simp only [hiringVelocityPoints]
    split
    · norm_num
    · split
      · norm_num
      · split
        · norm_num
        · split <;> norm_num

theorem jobPostingCountPoints_nonneg (ps : List String) :
    0 ≤ jobPostingCountPoints ps := by
  simp only [jobPostingCountPoints]
  split
  · norm_num
  · exact pyMin_nonneg (by norm_num) (by positivity)

theorem growthRatePoints_nonneg (g : Option ℚ) : 0 ≤ growthRatePoints g := by
  rcases g with _ | q
  · simp [growthRatePoints]
  · simp only [growthRatePoints]
    split
    · norm_num
    · split
      · norm_num
      · split
        · norm_num
        · split <;> norm_num

theorem scoreGrowthIndicators_nonneg (now : ℤ) (lead : Lead) :
    0 ≤ scoreGrowthIndicators now lead := by
  unfold scoreGrowthIndicators
  have h1 := fundingRecencyPoints_nonneg now lead.metrics.last_funding_date
  have h2 := hiringVelocityPoints_nonneg lead.buying_signals.recent_hiring
  have h3 := jobPostingCountPoints_nonneg lead.buying_signals.job_postings
  have h4 := growthRatePoints_nonneg lead.metrics.growth_rate
  linarith

theorem compatibleTechPoints_nonneg (ts : List String) : 0 ≤ compatibleTechPoints ts := by
  simp only [compatibleTechPoints]
  split
  · norm_num
  · exact pyMin_nonneg (by norm_num) (by positivity)

theorem competitorTechPoints_nonneg (ts : List String) : 0 ≤ competitorTechPoints ts := by
  simp only [competitorTechPoints]
  split
  · norm_num
  · exact pyMin_nonneg (by norm_num) (by positivity)

theorem modernTechPoints_nonneg (ts : List String) : 0 ≤ modernTechPoints ts := by
  simp only [modernTechPoints]
  split <;> norm_num

theorem scoreTechnologyFit_nonneg (lead : Lead) : 0 ≤ scoreTechnologyFit lead := by
  simp only [scoreTechnologyFit]
  split
  · norm_num
  · have h1 := compatibleTechPoints_nonneg (allTechnologies lead)
    have h2 := competitorTechPoints_nonneg (allTechnologies lead)
    have h3 := modernTechPoints_nonneg (allTechnologies lead)
    linarith

theorem trafficRankPoints_nonneg (r : Option ℤ) : 0 ≤ trafficRankPoints r := by
  rcases r with _ | n
  · simp [trafficRankPoints]
  · simp only [trafficRankPoints]
    split
    · norm_num
    · split
      · norm_num
      · split
        · norm_num
        · split <;> norm_num

theorem socialPresencePoints_nonneg (d : List (String × String)) :
    0 ≤ socialPresencePoints d := by
  simp only [socialPresencePoints]
  split
  · norm_num
  · exact pyMin_nonneg (by norm_num) (by positivity)

theorem thoughtLeadershipPoints_nonneg (d : List (String × String)) :
    0 ≤ thoughtLeadershipPoints d := by
  simp only [thoughtLeadershipPoints]
  split <;> norm_num

theorem dataRecencyPoints_nonneg (now : ℤ) (le : Option ℤ) :
    0 ≤ dataRecencyPoints now le := by
  rcases le with _ | t
  · simp [dataRecencyPoints]
  · simp only [dataRecencyPoints]
    split <;> norm_num

theorem scoreEngagementSignals_nonneg (now : ℤ) (lead : Lead) :
    0 ≤ scoreEngagementSignals now lead := by
  unfold scoreEngagementSignals
  have h1 := trafficRankPoints_nonneg lead.website_traffic_rank
  have h2 := socialPresencePoints_nonneg lead.social_media_presence
  have h3 := thoughtLeadershipPoints_nonneg lead.social_media_presence
  have h4 := dataRecencyPoints_nonneg now lead.last_enriched
  linarith

theorem decisionMakerPoints_nonneg (b : Bool) : 0 ≤ decisionMakerPoints b := by
  simp only [decisionMakerPoints]
  split <;> norm_num

theorem expansionPoints_nonneg (es : List String) : 0 ≤ expansionPoints es := by
  simp only [expansionPoints]
  split
  · norm_num
  · exact pyMin_nonneg (by norm_num) (by positivity)

theorem fundingWindowPoints_nonneg (now : ℤ) (d : Option ℤ) :
    0 ≤ fundingWindowPoints now d := by
  rcases d with _ | t
  · simp [fundingWindowPoints]
  · simp only [fundingWindowPoints]
    split <;> norm_num

theorem adoptionPoints_nonneg (es : List String) : 0 ≤ adoptionPoints es := by
  simp only [adoptionPoints]
  split <;> norm_num

theorem scoreTimingSignals_nonneg (now : ℤ) (lead : Lead) :
    0 ≤ scoreTimingSignals now lead := by
  unfold scoreTimingSignals
  have h1 := decisionMakerPoints_nonneg lead.buying_signals.decision_maker_changes
  have h2 := expansionPoints_nonneg lead.buying_signals.expansion_signals
  have h3 := fundingWindowPoints_nonneg now lead.metrics.last_funding_date
  have h4 := adoptionPoints_nonneg lead.buying_signals.expansion_signals
  linarith

theorem budgetPoints_nonneg (bs : List String) : 0 ≤ budgetPoints bs := by
  simp only [budgetPoints]
  split
  · norm_num
  · exact pyMin_nonneg (by norm_num) (by positivity)

theorem relevantRolePoints_nonneg (ps : List String) : 0 ≤ relevantRolePoints ps := by
  simp only [relevantRolePoints]
  split
  · norm_num
  · split
    · norm_num
    · exact pyMin_nonneg (by norm_num) (by positivity)

theorem painPointPoints_nonneg (lead : Lead) : 0 ≤ painPointPoints lead := by
  simp only [painPointPoints]
  split <;> norm_num

theorem scoreBuyingSignals_nonneg (lead : Lead) : 0 ≤ scoreBuyingSignals lead := by
  unfold scoreBuyingSignals
  have h1 := budgetPoints_nonneg lead.buying_signals.budget_indicators
  have h2 := relevantRolePoints_nonneg lead.buying_signals.job_postings
  have h3 := painPointPoints_nonneg lead
  linarith

theorem applyScoringRules_fst_nonneg (icp : IdealCustomerProfile) (now : ℤ)
    (lead : Lead) (rules : List ScoringRule)
    (h : ∀ r ∈ rules, 0 ≤ r.score_impact * r.weight) :
    0 ≤ (applyScoringRules icp now lead rules).1 := by
  unfold applyScoringRules
  suffices H : ∀ (acc : ℚ × List String), 0 ≤ acc.1 →
      0 ≤ (rules.foldl
        (fun acc r =>
          if ruleMatches icp now lead r then
            (acc.1 + r.score_impact * r.weight, acc.2 ++ [r.name])
          else acc) acc).1 by
    exact H (0, []) (le_refl 0)
  induction rules with
  | nil => intro acc hacc; exact hacc
  | cons r rs ih =>
    intro acc hacc
    have hr := h r (List.mem_cons_self r rs)
    have hrs : ∀ x ∈ rs, 0 ≤ x.score_impact * x.weight :=
      fun x hx => h x (List.mem_cons_of_mem r hx)
    simp only [List.foldl_cons]
    split
    · exact ih hrs (acc.1 + r.score_impact * r.weight, acc.2 ++ [r.name])
        (by simp only; linarith)
    · exact ih hrs acc hacc

theorem defaultRules_impacts_nonneg :
    ∀ r ∈ defaultRules, 0 ≤ r.score_impact * r.weight := by
  intro r hr
  fin_cases hr <;> norm_num

theorem prePenaltyTotal_default_nonneg (now : ℤ) (lead : Lead) :
    0 ≤ prePenaltyTotal defaultModel now lead := by
  have hicp : defaultModel.icp.company_size_min = none := rfl
  have h1 := scoreCompanyFit_nonneg defaultModel.icp hicp lead
  have h2 := scoreGrowthIndicators_nonneg now lead
  have h3 := scoreTechnologyFit_nonneg lead
  have h4 := scoreEngagementSignals_nonneg now lead
  have h5 := scoreTimingSignals_nonneg now lead
  have h6 := scoreBuyingSignals_nonneg lead
  have h7 : 0 ≤ (applyScoringRules defaultModel.icp now lead defaultModel.global_rules).1 := by
    apply applyScoringRules_fst_nonneg
    have hdr : defaultModel.global_rules = defaultRules := rfl
    rw [hdr]
    exact defaultRules_impacts_nonneg
  have hw1 : defaultModel.weights.company_fit = 0.25 := rfl
  have hw2 : defaultModel.weights.growth_indicators = 0.20 := rfl
  have hw3 : defaultModel.weights.technology_fit = 0.15 := rfl
  have hw4 : defaultModel.weights.engagement_signals = 0.15 := rfl
  have hw5 : defaultModel.weights.timing_signals = 0.15 := rfl
  have hw6 : defaultModel.weights.buying_signals = 0.10 := rfl
  unfold prePenaltyTotal calculateWeightedScore
  rw [hw1, hw2, hw3, hw4, hw5, hw6]
  simp only [categoryScores]
  nlinarith

/-! ## Claim theorems -/

theorem totalScore_clamp_bounds (t : ℚ) :
    0 ≤ pyMin 100 (pyMax 0 t) ∧ pyMin 100 (pyMax 0 t) ≤ 100 := by
  rw [pyMin_eq_min, pyMax_eq_max]
  exact ⟨le_min (by norm_num) (le_max_left 0 t), min_le_left _ _⟩

/-- C1 (counterexample): a lead whose base tier is Warm, whose intent level
is High and whose data_quality_score is 30 reconciles to Hot, not Warm:
the intent-High/base-Warm upgrade branch returns immediately, so the
data-quality downgrade is never reached. -/
theorem reconcile_warm_high_dq30_counterexample :
    determineFinalQualification .warm "High" 0 (some 30) = .hot ∧
    QualificationStatus.hot ≠ QualificationStatus.warm := by
  refine ⟨by with_unfolding_all rfl, fun h => QualificationStatus.noConfusion h⟩

/-- C1 (amended): for every timing score and every data_quality_score
(including one below 40), a base tier of Warm with intent level High
reconciles to Hot: the upgrade rule fires first and returns, and the
data-quality downgrade applies only when no upgrade fired. -/
theorem reconcile_warm_high_amended (ts : ℚ) (dq : Option ℚ) :
    determineFinalQualification .warm "High" ts dq = .hot := by
  unfold determineFinalQualification
  rw [if_pos ⟨rfl, rfl⟩]

/-- C2: for every scoring model, every clock and every lead (hence any
subset of optional fields absent — all lead fields beyond the two required
strings are optional), `score_lead` and `qualify_lead` are total functions
and the returned total_score satisfies 0 ≤ total_score ≤ 100. -/
theorem score_qualify_totality (model : ScoringModel) (now : ℤ) (clock : Clock)
    (lead : Lead) :
    (0 ≤ (scoreLead model now lead).total_score ∧
      (scoreLead model now lead).total_score ≤ 100) ∧
    (0 ≤ (qualifyLead clock lead).lead_score.total_score ∧
      (qualifyLead clock lead).lead_score.total_score ≤ 100) :=
  ⟨totalScore_clamp_bounds _, totalScore_clamp_bounds _⟩

/-- C4: a rule whose condition has an unresolvable dotted field path (or a
missing field key) or an unknown operator never matches: the matcher
returns false, and applying such a rule contributes no adjustment and does
not list the rule in applied_rules. -/
theorem ruleMatcher_totality (icp : IdealCustomerProfile) (now : ℤ) (lead : Lead)
    (r : ScoringRule)
    (h : (r.condition.field = none ∨
          ∃ f, r.condition.field = some f ∧ getFieldValue lead f = none) ∨
         (r.condition.operator = none ∨
          ∃ op, r.condition.operator = some op ∧ op ∉ knownOperators)) :
    ruleMatches icp now lead r = false ∧
    applyScoringRules icp now lead [r] = (0, []) := by
  have hm : ruleMatches icp now lead r = false := by
    rcases h with (hf | ⟨f, hf, hv⟩) | hop
    · simp only [ruleMatches, hf]
    · simp only [ruleMatches, hf]
      split
      · rfl
      · simp only [hv]
    · cases hfield : r.condition.field with
      | none => simp only [ruleMatches, hfield]
      | some f =>
        simp only [ruleMatches, hfield]
        split
        · rfl
        · cases hval : getFieldValue lead f with
          | none => simp only [hval]
          | some fv =>
            simp only [hval]
            unfold opMatches
            rcases hop with hop | ⟨op, hop, hmem⟩
            · simp only [hop]
            · simp only [hop]
              simp only [knownOperators, List.mem_cons, List.not_mem_nil,
                or_false, not_or] at hmem
              obtain ⟨h1, h2, h3, h4, h5, h6, h7⟩ := hmem
              rw [if_neg h1, if_neg h2, if_neg h3, if_neg h4, if_neg h5,
                if_neg h6, if_neg h7]
  refine ⟨hm, ?_⟩
  simp [applyScoringRules, hm]

/-- A lead without the dynamic attributes some default rules name. -/
def leadW4 : Lead := { company_name := "NoFields", domain := "nofields.io" }

/-- The "Website Traffic Growth" default rule: its field path
`website_traffic_trend` resolves on no lead. -/
def ruleW4 : ScoringRule :=
  { name := "Website Traffic Growth", category := .engagement_signals,
    condition := { field := some "website_traffic_trend", operator := some "eq",
                   value := some (.cstr "up") },
    score_impact := 5 }

theorem ruleMatcher_totality_witness :
    ruleMatches ({} : IdealCustomerProfile) 0 leadW4 ruleW4 = false ∧
    applyScoringRules ({} : IdealCustomerProfile) 0 leadW4 [ruleW4] = (0, []) :=
  ruleMatcher_totality {} 0 leadW4 ruleW4
    (Or.inl (Or.inr ⟨"website_traffic_trend", rfl, rfl⟩))

/-- C5: the base qualification is a highest-first threshold comparison
with inclusive lower bounds: whenever the configured hot threshold is the
default 80, a returned total_score ≥ 80 forces the base qualification
status computed by `score_lead` (prior to any reconciliation in the
qualification engine) to be Hot. -/
theorem hotThreshold_consistency (model : ScoringModel) (now : ℤ) (lead : Lead)
    (hthr : model.thresholds.hot_threshold = 80)
    (hs : 80 ≤ (scoreLead model now lead).total_score) :
    (scoreLead model now lead).qualification_status = .hot := by
  have htot : (scoreLead model now lead).total_score =
      pyMin 100 (pyMax 0 (postPenaltyTotal model now lead)) := rfl
  rw [htot, pyMin_eq_min, pyMax_eq_max] at hs
  have h2 : (80 : ℚ) ≤ max 0 (postPenaltyTotal model now lead) :=
    le_trans hs (min_le_right _ _)
  have h3 : (80 : ℚ) ≤ postPenaltyTotal model now lead := by
    rcases le_or_lt (postPenaltyTotal model now lead) 0 with h0 | h0
    · rw [max_eq_left h0] at h2; norm_num at h2
    · rwa [max_eq_right h0.le] at h2
  show determineQualification model.thresholds (postPenaltyTotal model now lead) = .hot
  unfold determineQualification
  rw [hthr, if_pos h3]

/-- A model whose single custom rule pushes any lead named "Acme" to 100. -/
def modelW5 : ScoringModel :=
  { defaultModel with
    global_rules := [ { name := "Boost", category := .company_fit,
                        condition := { field := some "company_name",
                                       operator := some "eq",
                                       value := some (.cstr "Acme") },
                        score_impact := 100 } ],
    apply_data_quality_penalty := false }

def leadW5 : Lead := { company_name := "Acme", domain := "acme.com" }

theorem hotThreshold_consistency_witness :
    (scoreLead modelW5 0 leadW5).qualification_status = .hot :=
  hotThreshold_consistency modelW5 0 leadW5 rfl (by with_unfolding_all decide)

/-- C6: for a fixed weight configuration with nonnegative weights (the
model validates each weight into [0, 1]) and fixed rule adjustments,
the weighted total of `_calculate_weighted_score` is monotone: raising any
single category score by δ ≥ 0 never decreases the result. -/
theorem weightedScore_monotone (w : ScoringWeights)
    (hw : 0 ≤ w.company_fit ∧ 0 ≤ w.growth_indicators ∧ 0 ≤ w.technology_fit ∧
          0 ≤ w.engagement_signals ∧ 0 ≤ w.timing_signals ∧ 0 ≤ w.buying_signals)
    (cs : ScoreCategory → ℚ) (adj δ : ℚ) (c : ScoreCategory) (hδ : 0 ≤ δ) :
    calculateWeightedScore w cs adj ≤
      calculateWeightedScore w (Function.update cs c (cs c + δ)) adj := by
  obtain ⟨h1, h2, h3, h4, h5, h6⟩ := hw
  cases c <;>
    simp [calculateWeightedScore, Function.update] <;>
    nlinarith [mul_nonneg hδ h1, mul_nonneg hδ h2, mul_nonneg hδ h3,
      mul_nonneg hδ h4, mul_nonneg hδ h5, mul_nonneg hδ h6]

theorem weightedScore_monotone_witness :
    calculateWeightedScore {} (fun _ => 0) 0 ≤
      calculateWeightedScore {}
        (Function.update (fun _ => (0 : ℚ)) ScoreCategory.company_fit
          ((fun _ => (0 : ℚ)) ScoreCategory.company_fit + 1)) 0 :=
  weightedScore_monotone {}
    ⟨by with_unfolding_all decide, by with_unfolding_all decide,
     by with_unfolding_all decide, by with_unfolding_all decide,
     by with_unfolding_all decide, by with_unfolding_all decide⟩
    (fun _ => 0) 0 1 .company_fit (by norm_num)

/-- A lead with a present data_quality_score of exactly 0 and a nonzero
pre-penalty total (industry "saas" contributes 6 × 1.3 × 0.25 = 1.95). -/
def leadC3 : Lead :=
  { company_name := "Acme", domain := "acme.com",
    industry := some "saas", data_quality_score := some 0 }

/-- C3 (counterexample): with the penalty enabled and data_quality_score
present but equal to 0, `score_lead` subtracts nothing — the Python
truthiness test `if ... and lead.data_quality_score:` treats a present 0
as absent — although the claimed formula prescribes a positive penalty
0.2 × total at that point. -/
theorem qualityPenalty_counterexample :
    leadC3.data_quality_score = some 0 ∧
    defaultModel.apply_data_quality_penalty = true ∧
    prePenaltyTotal defaultModel 0 leadC3 = 39 / 20 ∧
    (scoreLead defaultModel 0 leadC3).data_quality_impact = 0 ∧
    (0 : ℚ) ≠ 39 / 20 * (1 - 0 / 100) * 0.2 :=
  ⟨rfl, rfl, by with_unfolding_all rfl, by with_unfolding_all rfl, by norm_num⟩

/-- C3 (amended): when the penalty is enabled and data_quality_score is
present and nonzero (Python truthiness) with value q in [0, 100],
`score_lead` subtracts exactly total × (1 − q/100) × 0.2 from the
pre-penalty weighted total, the penalty is at most 20% of the pre-penalty
score, q = 100 yields zero penalty, and the floored subtraction is exact. -/
theorem qualityPenalty_amended (now : ℤ) (lead : Lead) (q : ℚ)
    (hdq : lead.data_quality_score = some q) (hq0 : q ≠ 0)
    (hql : 0 ≤ q) (_hqu : q ≤ 100) :
    (scoreLead defaultModel now lead).data_quality_impact =
      prePenaltyTotal defaultModel now lead * (1 - q / 100) * 0.2 ∧
    (scoreLead defaultModel now lead).data_quality_impact ≤
      0.2 * prePenaltyTotal defaultModel now lead ∧
    (q = 100 → (scoreLead defaultModel now lead).data_quality_impact = 0) ∧
    postPenaltyTotal defaultModel now lead =
      prePenaltyTotal defaultModel now lead -
        (scoreLead defaultModel now lead).data_quality_impact := by
  have happ : penaltyApplies defaultModel lead = true := by
    unfold penaltyApplies qTruthy
    rw [hdq]
    simp only [hq0, if_false, Bool.and_true, ite_eq_right_iff]
    rfl
  have hproj : (scoreLead defaultModel now lead).data_quality_impact =
      dataQualityImpact defaultModel now lead := rfl
  have himp : dataQualityImpact defaultModel now lead =
      prePenaltyTotal defaultModel now lead * (1 - q / 100) * 0.2 := by
    unfold dataQualityImpact
    rw [happ, hdq]
    simp [Option.getD]
  have hpre := prePenaltyTotal_default_nonneg now lead
  refine ⟨by rw [hproj, himp], ?_, ?_, ?_⟩
  · rw [hproj, himp]; nlinarith
  · intro h100; rw [hproj, himp, h100]; norm_num
  · unfold postPenaltyTotal
    rw [happ, hproj, himp]
    simp only [if_true]
    rw [pyMax_eq_max]
    apply max_eq_right
    nlinarith

/-- A lead with a present, nonzero data_quality_score of 30. -/
def leadW3 : Lead :=
  { company_name := "Quality", domain := "quality.io", data_quality_score := some 30 }

theorem qualityPenalty_amended_witness :
    (scoreLead defaultModel 0 leadW3).data_quality_impact =
      prePenaltyTotal defaultModel 0 leadW3 * (1 - 30 / 100) * 0.2 ∧
    (scoreLead defaultModel 0 leadW3).data_quality_impact ≤
      0.2 * prePenaltyTotal defaultModel 0 leadW3 ∧
    ((30 : ℚ) = 100 → (scoreLead defaultModel 0 leadW3).data_quality_impact = 0) ∧
    postPenaltyTotal defaultModel 0 leadW3 =
      prePenaltyTotal defaultModel 0 leadW3 -
        (scoreLead defaultModel 0 leadW3).data_quality_impact :=
  qualityPenalty_amended 0 leadW3 30 rfl (by norm_num) (by norm_num) (by norm_num)

/-- A weight configuration summing to 0, far outside the 0.01 tolerance. -/
def zeroWeights : ScoringWeights :=
  { company_fit := 0, growth_indicators := 0, technology_fit := 0,
    engagement_signals := 0, timing_signals := 0, buying_signals := 0 }

/-- A scoring model carrying the invalid weight configuration. -/
def badModelC7 : ScoringModel := { weights := zeroWeights }

/-- C7 (counterexample): the zero-weight configuration fails
validate_weights, yet constructing the engine with it succeeds — `__init__`
performs no weight validation — and `score_lead` then runs with it. -/
theorem weightsValidation_counterexample :
    validateWeights zeroWeights = .error "Weights must sum to 1.0" ∧
    (leadScoringEngineInit badModelC7).weights = zeroWeights ∧
    (scoreLead (leadScoringEngineInit badModelC7) 0
        { company_name := "Nobody", domain := "nobody.io" }).total_score = 0 :=
  ⟨by with_unfolding_all rfl, rfl, by with_unfolding_all rfl⟩

/-- C7 (amended): `validate_weights` does reject any configuration whose
six weights miss 1.0 by more than 0.01, but no engine-construction path
invokes it: `LeadScoringEngine.__init__` keeps the supplied weights
unchanged (only filling in default rules for an empty rule list), so an
invalid configuration is accepted and used in scoring. -/
theorem weightsValidation_amended (w : ScoringWeights) (m : ScoringModel) :
    (|sumWeights w - 1| > 0.01 →
      validateWeights w = .error "Weights must sum to 1.0") ∧
    (leadScoringEngineInit m).weights = m.weights ∧
    (m.global_rules = [] → (leadScoringEngineInit m).global_rules = defaultRules) := by
  refine ⟨fun h => ?_, ?_, fun h => ?_⟩
  · unfold validateWeights; rw [if_pos h]
  · unfold leadScoringEngineInit; split <;> rfl
  · unfold leadScoringEngineInit; rw [if_pos h]

theorem weightsValidation_amended_witness :
    validateWeights zeroWeights = .error "Weights must sum to 1.0" ∧
    (leadScoringEngineInit badModelC7).weights = badModelC7.weights ∧
    (leadScoringEngineInit badModelC7).global_rules = defaultRules :=
  ⟨(weightsValidation_amended zeroWeights badModelC7).1 (by with_unfolding_all decide),
   (weightsValidation_amended zeroWeights badModelC7).2.1,
   (weightsValidation_amended zeroWeights badModelC7).2.2 rfl⟩

/-- C8 (counterexample): the posting "VP Marketing & Marketing Manager"
matches both the high-intent and the medium-intent title tier, but the
job-posting analyzer scores it 7 (5 for high-intent, skipping the elif
medium-intent tier, plus 2 for the decision-maker tier), not the
10 = min(5 + 3 + 2, 10) the claim's additive reading prescribes. -/
theorem jobPostingTiers_counterexample :
    anySubIn highIntentRoles (lowerStr "VP Marketing & Marketing Manager") = true ∧
    anySubIn mediumIntentRoles (lowerStr "VP Marketing & Marketing Manager") = true ∧
    analyzeJobPostingIntent ["VP Marketing & Marketing Manager"] = 7 ∧
    ¬ analyzeJobPostingIntent ["VP Marketing & Marketing Manager"] = 10 :=
  ⟨rfl, rfl, by with_unfolding_all rfl, by with_unfolding_all decide⟩

/-- C8 (amended): the high-intent and medium-intent title tiers are an
if/elif pair — mutually exclusive, high first — while the decision-maker
and tech-ops tiers are additive with them and with each other; a posting
matching both a high-intent and a medium-intent title contributes only 5
from those two tiers, and the per-list score is capped at 10. -/
theorem jobPostingTiers_amended (p : String)
    (h1 : anySubIn highIntentRoles (lowerStr p) = true)
    (_h2 : anySubIn mediumIntentRoles (lowerStr p) = true) :
    postingIntentPoints p =
      5 + (if anySubIn decisionMakerRoles (lowerStr p) then 2 else 0) +
        (if anySubIn techRoleKeywords (lowerStr p) then 4 else 0) ∧
    analyzeJobPostingIntent [p] = pyMin (postingIntentPoints p) 10 := by
  constructor
  · simp [postingIntentPoints, h1]
  · unfold analyzeJobPostingIntent
    simp

theorem jobPostingTiers_witness :
    postingIntentPoints "VP Marketing & Marketing Manager" =
      5 + (if anySubIn decisionMakerRoles
              (lowerStr "VP Marketing & Marketing Manager") then 2 else 0) +
        (if anySubIn techRoleKeywords
              (lowerStr "VP Marketing & Marketing Manager") then 4 else 0) :=
  (jobPostingTiers_amended "VP Marketing & Marketing Manager" rfl rfl).1

/-- A lead whose growth_rate is present and exactly 0. -/
def leadC9 : Lead :=
  { company_name := "Flat", domain := "flat.io",
    metrics := { growth_rate := some 0 } }

/-- C9 (counterexample): a present growth_rate of 0.0 is below 10 but
contributes 0 points, not 1 — `if lead.metrics.growth_rate:` is false for
a present 0 — so the whole Growth Indicators score of a lead with only
that field set is 0. -/
theorem growthRate_counterexample :
    leadC9.metrics.growth_rate = some 0 ∧
    (0 : ℚ) < 10 ∧
    growthRatePoints (some 0) = 0 ∧
    scoreGrowthIndicators 0 leadC9 = 0 ∧
    (0 : ℚ) ≠ 1 :=
  ⟨rfl, by norm_num, by with_unfolding_all rfl, by with_unfolding_all rfl,
   by norm_num⟩

/-- C9 (amended): for every lead whose growth_rate is present and nonzero,
the growth-rate component of the Growth Indicators category score follows
the tiers 4 (≥ 50), 3 (≥ 25), 2 (≥ 10), else 1; a present growth_rate of
exactly 0 is treated as absent and contributes nothing. -/
theorem growthRate_amended (now : ℤ) (lead : Lead) (g : ℚ)
    (hg : lead.metrics.growth_rate = some g) (hg0 : g ≠ 0) :
    scoreGrowthIndicators now lead =
      fundingRecencyPoints now lead.metrics.last_funding_date +
      hiringVelocityPoints lead.buying_signals.recent_hiring +
      jobPostingCountPoints lead.buying_signals.job_postings +
      (if 50 ≤ g then 4 else if 25 ≤ g then 3 else if 10 ≤ g then 2 else 1) := by
  unfold scoreGrowthIndicators
  rw [hg]
  simp only [growthRatePoints]
  rw [if_neg hg0]

/-- A lead whose growth_rate is 5 (present, nonzero, below 10). -/
def leadW9 : Lead :=
  { company_name := "Slow", domain := "slow.io",
    metrics := { growth_rate := some 5 } }

theorem growthRate_amended_witness :
    scoreGrowthIndicators 0 leadW9 =
      fundingRecencyPoints 0 leadW9.metrics.last_funding_date +
      hiringVelocityPoints leadW9.buying_signals.recent_hiring +
      jobPostingCountPoints leadW9.buying_signals.job_postings +
      (if (50 : ℚ) ≤ 5 then 4 else if (25 : ℚ) ≤ 5 then 3
       else if (10 : ℚ) ≤ 5 then 2 else 1) :=
  growthRate_amended 0 leadW9 5 rfl (by norm_num)

/-- C10: when data_quality_score is absent, `qualify_lead` substitutes 50
for the data-quality input of the priority score, which therefore equals
(total/100 × 0.4 + min(intent/20, 1) × 0.3 + 50/100 × 0.2 +
timing/20 × 0.1) × 100 — a fixed 10-point data-quality contribution. -/
theorem priorityScore_dqAbsent (clock : Clock) (lead : Lead)
    (h : lead.data_quality_score = none) :
    (qualifyLead clock lead).priority_score =
      ((qualifyLead clock lead).lead_score.total_score / 100 * 0.4 +
        pyMin ((qualifyLead clock lead).intent_score / 20) 1 * 0.3 +
        (50 : ℚ) / 100 * 0.2 +
        (qualifyLead clock lead).timing_score / 20 * 0.1) * 100 := by
  simp only [qualifyLead, h, dqOr50, calculatePriorityScore]

def leadW10 : Lead := { company_name := "Anon", domain := "anon.io" }

theorem priorityScore_dqAbsent_witness :
    (qualifyLead { today := 0, month := 2 } leadW10).priority_score =
      ((qualifyLead { today := 0, month := 2 } leadW10).lead_score.total_score
          / 100 * 0.4 +
        pyMin ((qualifyLead { today := 0, month := 2 } leadW10).intent_score / 20)
          1 * 0.3 +
        (50 : ℚ) / 100 * 0.2 +
        (qualifyLead { today := 0, month := 2 } leadW10).timing_score / 20 * 0.1)
        * 100 :=
  priorityScore_dqAbsent { today := 0, month := 2 } leadW10 rfl

end LeadScorer
